import Mathlib

/-!
Verification of the Segment Aggregation Engine of `src/data_engine.py`
(game-index slicer, metric aggregator, trend classifier, diagnosis assembler).

The pandas DataFrame of Statcast rows is embedded as a `List EventRecord`;
calendar dates are embedded as naturals whose order is chronological order;
floating-point measurements are embedded as rationals; nullable columns are
`Option` fields (a missing column is the all-`none` column).  A Python
`raise` is an `Except.error`.
-/

/-- One Statcast row, restricted to the columns the data engine reads. -/
structure EventRecord where
  game_date : Nat
  events : Option String
  description : Option String
  launch_speed : Option ℚ
  launch_angle : Option ℚ
  hit_distance_sc : Option ℚ
  release_spin_rate : Option ℚ

deriving instance DecidableEq for EventRecord

/-- The error raised by `slice_by_game_index` when fewer than 30 distinct
game dates are present; the Python message interpolates the observed count
and the required minimum 30. -/
structure InsufficientSampleError where
  observed : Nat
  required : Nat

deriving instance DecidableEq for InsufficientSampleError

/-- Embeds the pandas pipeline drop_duplicates then sort_values on the
game_date column: the distinct game dates of the stream, sorted
ascending. -/
def gameDates (df : List EventRecord) : List Nat :=
  List.insertionSort (· ≤ ·) (df.map EventRecord.game_date).dedup

/-- Embeds the slice `game_dates[0:10]`. -/
def early_dates (df : List EventRecord) : List Nat :=
  (gameDates df).take 10

/-- Embeds the slice `game_dates[mid_start:mid_end]` with
`mid_center = n_games // 2`, `mid_start = mid_center - 5`,
`mid_end = mid_center + 5`. -/
def mid_dates (df : List EventRecord) : List Nat :=
  ((gameDates df).drop ((gameDates df).length / 2 - 5)).take
    ((gameDates df).length / 2 + 5 - ((gameDates df).length / 2 - 5))

/-- Embeds the slice `game_dates[-10:]`. -/
def late_dates (df : List EventRecord) : List Nat :=
  (gameDates df).drop ((gameDates df).length - 10)

/-- Embeds selecting the rows whose game_date is in early_dates. -/
def early_window (df : List EventRecord) : List EventRecord :=
  df.filter (fun r => decide (r.game_date ∈ early_dates df))

/-- Embeds selecting the rows whose game_date is in mid_dates. -/
def mid_window (df : List EventRecord) : List EventRecord :=
  df.filter (fun r => decide (r.game_date ∈ mid_dates df))

/-- Embeds selecting the rows whose game_date is in late_dates. -/
def late_window (df : List EventRecord) : List EventRecord :=
  df.filter (fun r => decide (r.game_date ∈ late_dates df))

/-- Embeds `slice_by_game_index`: split the stream into the three windows,
raising when fewer than 30 distinct game dates are present. -/
def slice_by_game_index (df : List EventRecord) :
    Except InsufficientSampleError
      (List EventRecord × List EventRecord × List EventRecord) :=
  if (gameDates df).length < 30 then
    Except.error { observed := (gameDates df).length, required := 30 }
  else
    Except.ok (early_window df, mid_window df, late_window df)

/-- Embeds the pandas count of entries of `events` equal to `e`. -/
def countEq (events : List String) (e : String) : Nat :=
  (events.filter (fun x => x == e)).length

/-- Embeds the pandas count of entries of `events` listed in `l`. -/
def countIn (events : List String) (l : List String) : Nat :=
  (events.filter (fun x => l.contains x)).length

/-- Embeds the pandas isin test on one nullable cell (false on missing
values). -/
def optMem (o : Option String) (l : List String) : Bool :=
  match o with
  | some s => l.contains s
  | none => false

/-- Embeds the pandas mean of the non-null values. -/
def qmean (l : List ℚ) : ℚ :=
  l.sum / l.length

/-- Embeds the pandas max of the non-null values (only used on non-empty
lists). -/
def qmaxOf (l : List ℚ) : ℚ :=
  l.foldl max (l.headD 0)

/-- Python 3 `round` to an integer: round half to even. -/
def roundHalfEven (q : ℚ) : ℤ :=
  if q - ⌊q⌋ < 1 / 2 then ⌊q⌋
  else if 1 / 2 < q - ⌊q⌋ then ⌊q⌋ + 1
  else if 2 ∣ ⌊q⌋ then ⌊q⌋ else ⌊q⌋ + 1

/-- Python 3 `round(q, ndigits)`. -/
def pyRound (q : ℚ) (ndigits : Nat) : ℚ :=
  (roundHalfEven (q * 10 ^ ndigits) : ℚ) / 10 ^ ndigits

/-- The event types counted as hits for BABIP. -/
def hitEvents : List String :=
  ["single", "double", "triple", "home_run"]

/-- The event types counted as at-bats for BABIP and wOBA. -/
def atBatEvents : List String :=
  ["single", "double", "triple", "home_run",
   "field_out", "strikeout", "double_play",
   "grounded_into_double_play", "force_out",
   "fielders_choice", "fielders_choice_out"]

/-- The pitch descriptions counted as swings for the whiff rate. -/
def swingDescriptions : List String :=
  ["swinging_strike", "swinging_strike_blocked",
   "foul", "foul_tip", "hit_into_play"]

/-- The pitch descriptions counted as swinging strikes. -/
def whiffDescriptions : List String :=
  ["swinging_strike", "swinging_strike_blocked"]

/-- The BABIP denominator `at_bats - strikeouts - home_runs + sac_flies`
over the non-null events of a window. -/
def babipDenominator (events : List String) : ℤ :=
  (countIn events atBatEvents : ℤ) - (countEq events "strikeout" : ℤ)
    - (countEq events "home_run" : ℤ) + (countEq events "sac_fly" : ℤ)

/-- The wOBA linear weights dictionary. -/
def wobaWeights : List (String × ℚ) :=
  [("walk", 690 / 1000), ("hit_by_pitch", 722 / 1000),
   ("single", 883 / 1000), ("double", 1244 / 1000),
   ("triple", 1569 / 1000), ("home_run", 2015 / 1000)]

/-- The wOBA numerator: the weighted sum of the event counts. -/
def wobaNumerator (events : List String) : ℚ :=
  (wobaWeights.map (fun p => (countEq events p.1 : ℚ) * p.2)).sum

/-- The wOBA denominator `at_bats + walks + hit_by_pitch + sac_flies`. -/
def wobaDenominator (events : List String) : ℤ :=
  (countIn events atBatEvents : ℤ) + (countEq events "walk" : ℤ)
    + (countEq events "hit_by_pitch" : ℤ) + (countEq events "sac_fly" : ℤ)

/-- The dictionary returned by `aggregate_metrics` (fixed key set). -/
structure SegmentMetrics where
  segment : String
  games : Nat
  plate_appearances : Nat
  avg_launch_speed : Option ℚ
  avg_launch_angle : Option ℚ
  hard_hit_rate : Option ℚ
  whiff_rate : Option ℚ
  max_hit_distance : Option ℚ
  avg_pitcher_spin : Option ℚ
  home_runs : Nat
  walks : Nat
  bb_rate : Option ℚ
  strikeouts : Nat
  k_rate : Option ℚ
  babip : Option ℚ
  woba : Option ℚ

deriving instance DecidableEq for SegmentMetrics

/-- Embeds `aggregate_metrics`: reduce one window to its named
statistics. -/
def aggregate_metrics (segment_df : List EventRecord) (segment_name : String) :
    SegmentMetrics :=
  let valid_launch := segment_df.filterMap EventRecord.launch_speed
  let valid_angle := segment_df.filterMap EventRecord.launch_angle
  let valid_distance := segment_df.filterMap EventRecord.hit_distance_sc
  let valid_spin := segment_df.filterMap EventRecord.release_spin_rate
  let total_swings :=
    (segment_df.filter (fun r => optMem r.description swingDescriptions)).length
  let swinging_strikes :=
    (segment_df.filter (fun r => optMem r.description whiffDescriptions)).length
  let events := segment_df.filterMap EventRecord.events
  let total_events := events.length
  let home_runs := countEq events "home_run"
  let walks := countEq events "walk"
  let strikeouts := countEq events "strikeout"
  let hits := countIn events hitEvents
  let babip_numerator : ℤ := (hits : ℤ) - (home_runs : ℤ)
  let babip_denominator := babipDenominator events
  let woba_denominator := wobaDenominator events
  { segment := segment_name
    games := (segment_df.map EventRecord.game_date).dedup.length
    plate_appearances := (segment_df.filter (fun r => r.events.isSome)).length
    avg_launch_speed :=
      if 0 < valid_launch.length then some (pyRound (qmean valid_launch) 2)
      else none
    avg_launch_angle :=
      if 0 < valid_angle.length then some (pyRound (qmean valid_angle) 2)
      else none
    hard_hit_rate :=
      if 0 < valid_launch.length then
        some (pyRound
          (((valid_launch.filter (fun v => decide (95 < v))).length : ℚ)
            / (valid_launch.length : ℚ) * 100) 2)
      else none
    whiff_rate :=
      if 0 < total_swings then
        some (pyRound ((swinging_strikes : ℚ) / (total_swings : ℚ) * 100) 2)
      else none
    max_hit_distance :=
      if 0 < valid_distance.length then some (pyRound (qmaxOf valid_distance) 2)
      else none
    avg_pitcher_spin :=
      if 0 < valid_spin.length then some (pyRound (qmean valid_spin) 2)
      else none
    home_runs := home_runs
    walks := walks
    bb_rate :=
      if 0 < total_events then
        some (pyRound ((walks : ℚ) / (total_events : ℚ) * 100) 2)
      else none
    strikeouts := strikeouts
    k_rate :=
      if 0 < total_events then
        some (pyRound ((strikeouts : ℚ) / (total_events : ℚ) * 100) 2)
      else none
    babip :=
      if 0 < babip_denominator then
        some (pyRound ((babip_numerator : ℚ) / (babip_denominator : ℚ)) 3)
      else none
    woba :=
      if 0 < woba_denominator then
        some (pyRound (wobaNumerator events / (woba_denominator : ℚ)) 3)
      else none }

/-- Embeds the trend helper: label the direction of change between the Early and
Late values of one metric (the Mid value is accepted but unused). -/
def _calculate_trend (early_val mid_val late_val : Option ℚ) : String :=
  match early_val, late_val with
  | some e, some l =>
      if |l - e| < 1 then "stable"
      else if 0 < l - e then "increasing"
      else "decreasing"
  | _, _ => "insufficient_data"

/-- The `analysis_segments` sub-dictionary of the diagnosis JSON. -/
structure AnalysisSegments where
  early : SegmentMetrics
  mid : SegmentMetrics
  late : SegmentMetrics

/-- The `summary` sub-dictionary of the diagnosis JSON. -/
structure DiagnosisSummary where
  total_games_analyzed : Nat
  launch_speed_trend : String
  hard_hit_trend : String
  k_rate_trend : String

/-- The diagnosis JSON assembled by `build_diagnosis_json`. -/
structure DiagnosisResult where
  player_name : String
  analysis_segments : AnalysisSegments
  summary : DiagnosisSummary

/-- Embeds `build_diagnosis_json`: package the three segment records and the trend
labels into one result. -/
def build_diagnosis_json (player_name : String)
    (early_metrics mid_metrics late_metrics : SegmentMetrics) :
    DiagnosisResult :=
  { player_name := player_name
    analysis_segments :=
      { early := early_metrics, mid := mid_metrics, late := late_metrics }
    summary :=
      { total_games_analyzed :=
          early_metrics.games + mid_metrics.games + late_metrics.games
        launch_speed_trend :=
          _calculate_trend early_metrics.avg_launch_speed
            mid_metrics.avg_launch_speed late_metrics.avg_launch_speed
        hard_hit_trend :=
          _calculate_trend early_metrics.hard_hit_rate
            mid_metrics.hard_hit_rate late_metrics.hard_hit_rate
        k_rate_trend :=
          _calculate_trend early_metrics.k_rate
            mid_metrics.k_rate late_metrics.k_rate } }

/-- A minimal record carrying only a game date. -/
def mkRec (d : Nat) : EventRecord :=
  { game_date := d, events := none, description := none, launch_speed := none,
    launch_angle := none, hit_distance_sc := none, release_spin_rate := none }

/-- A stream with one record on each of 30 distinct dates. -/
def df30 : List EventRecord :=
  (List.range 30).map mkRec

/-- The boundary window of the BABIP test in the spec: a single and
nothing else. -/
def single_only_window : List EventRecord :=
  [{ mkRec 0 with events := some "single" }]

/-- A window holding one walk and nothing else: its events column is
non-empty, yet its BABIP denominator is 0. -/
def walk_only_window : List EventRecord :=
  [{ mkRec 0 with events := some "walk" }]

/-- A window holding one sacrifice bunt and nothing else: its events column
is non-empty, yet its wOBA denominator is 0. -/
def sac_bunt_only_window : List EventRecord :=
  [{ mkRec 0 with events := some "sac_bunt" }]

/-! ### Structural facts about the sorted distinct-date list -/

lemma gameDates_perm (df : List EventRecord) :
    (gameDates df).Perm (df.map EventRecord.game_date).dedup :=
  List.perm_insertionSort _ _

lemma gameDates_length (df : List EventRecord) :
    (gameDates df).length = (df.map EventRecord.game_date).dedup.length :=
  (gameDates_perm df).length_eq

lemma gameDates_nodup (df : List EventRecord) : (gameDates df).Nodup :=
  (gameDates_perm df).nodup_iff.mpr (List.nodup_dedup _)

lemma mem_gameDates {df : List EventRecord} {d : Nat} :
    d ∈ gameDates df ↔ d ∈ df.map EventRecord.game_date :=
  (gameDates_perm df).mem_iff.trans List.mem_dedup

lemma gameDates_sorted_le (df : List EventRecord) :
    (gameDates df).Sorted (· ≤ ·) :=
  List.sorted_insertionSort _ _

lemma gameDates_sorted_lt (df : List EventRecord) :
    (gameDates df).Sorted (· < ·) :=
  (gameDates_sorted_le df).lt_of_le (gameDates_nodup df)

/-! ### Index characterisations of list slices -/

lemma mem_take_iff_index {l : List Nat} {k d : Nat} :
    d ∈ l.take k ↔ ∃ i, i < k ∧ l[i]? = some d := by
  rw [List.mem_iff_getElem?]
  constructor
  · rintro ⟨i, hi⟩
    rw [List.getElem?_take] at hi
    by_cases h : i < k
    · exact ⟨i, h, by simpa [h] using hi⟩
    · simp [h] at hi
  · rintro ⟨i, hik, hi⟩
    refine ⟨i, ?_⟩
    rw [List.getElem?_take, if_pos hik]
    exact hi

lemma mem_drop_iff_index {l : List Nat} {k d : Nat} :
    d ∈ l.drop k ↔ ∃ i, k ≤ i ∧ i < l.length ∧ l[i]? = some d := by
  rw [List.mem_iff_getElem?]
  constructor
  · rintro ⟨j, hj⟩
    rw [List.getElem?_drop] at hj
    have hlt : k + j < l.length := by
      by_contra hge
      rw [List.getElem?_eq_none (by omega)] at hj
      exact Option.noConfusion hj
    exact ⟨k + j, by omega, hlt, hj⟩
  · rintro ⟨i, hk, hlen, hi⟩
    refine ⟨i - k, ?_⟩
    rw [List.getElem?_drop, Nat.add_sub_cancel' hk]
    exact hi

lemma mem_drop_take_iff_index {l : List Nat} {a b d : Nat} :
    d ∈ (l.drop a).take b ↔ ∃ i, a ≤ i ∧ i < a + b ∧ l[i]? = some d := by
  rw [mem_take_iff_index]
  constructor
  · rintro ⟨j, hj, hget⟩
    rw [List.getElem?_drop] at hget
    exact ⟨a + j, by omega, by omega, hget⟩
  · rintro ⟨i, ha, hb, hget⟩
    refine ⟨i - a, by omega, ?_⟩
    rw [List.getElem?_drop, Nat.add_sub_cancel' ha]
    exact hget

/-! ### Window membership -/

lemma mem_early_window {df : List EventRecord} {r : EventRecord} :
    r ∈ early_window df ↔ r ∈ df ∧ r.game_date ∈ early_dates df := by
  simp [early_window, List.mem_filter]

lemma mem_mid_window {df : List EventRecord} {r : EventRecord} :
    r ∈ mid_window df ↔ r ∈ df ∧ r.game_date ∈ mid_dates df := by
  simp [mid_window, List.mem_filter]

lemma mem_late_window {df : List EventRecord} {r : EventRecord} :
    r ∈ late_window df ↔ r ∈ df ∧ r.game_date ∈ late_dates df := by
  simp [late_window, List.mem_filter]

lemma mem_early_dates_iff {df : List EventRecord} {d : Nat} :
    d ∈ early_dates df ↔ ∃ i, i < 10 ∧ (gameDates df)[i]? = some d :=
  mem_take_iff_index

lemma mem_late_dates_iff {df : List EventRecord} {d : Nat} :
    d ∈ late_dates df ↔ ∃ i, (gameDates df).length - 10 ≤ i ∧
      i < (gameDates df).length ∧ (gameDates df)[i]? = some d :=
  mem_drop_iff_index

lemma mem_mid_dates_iff {df : List EventRecord} {d : Nat} :
    d ∈ mid_dates df ↔ ∃ i, (gameDates df).length / 2 - 5 ≤ i ∧
      i < (gameDates df).length / 2 + 5 ∧ (gameDates df)[i]? = some d := by
  unfold mid_dates
  rw [mem_drop_take_iff_index]
  constructor <;> rintro ⟨i, h1, h2, h3⟩ <;> exact ⟨i, by omega, by omega, h3⟩

/-! ### Shared helper lemmas for the claim theorems -/

lemma aggregate_games (w : List EventRecord) (s : String) :
    (aggregate_metrics w s).games = (w.map EventRecord.game_date).dedup.length :=
  rfl

lemma total_games_eq (p : String) (e m l : SegmentMetrics) :
    (build_diagnosis_json p e m l).summary.total_games_analyzed =
      e.games + m.games + l.games :=
  rfl

lemma window_games_eq (df : List EventRecord) (dates : List Nat)
    (hnd : dates.Nodup)
    (hsub : ∀ d ∈ dates, d ∈ df.map EventRecord.game_date) :
    (((df.filter (fun r => decide (r.game_date ∈ dates))).map
      EventRecord.game_date).dedup).length = dates.length := by
  have hmem : ∀ d, (d ∈ (df.filter (fun r => decide (r.game_date ∈ dates))).map
      EventRecord.game_date) ↔ d ∈ dates := by
    intro d
    constructor
    · intro hd
      rcases List.mem_map.mp hd with ⟨r, hr, rfl⟩
      rcases List.mem_filter.mp hr with ⟨-, hrd⟩
      exact of_decide_eq_true hrd
    · intro hd
      rcases List.mem_map.mp (hsub d hd) with ⟨r, hr, rfl⟩
      exact List.mem_map.mpr
        ⟨r, List.mem_filter.mpr ⟨hr, decide_eq_true hd⟩, rfl⟩
  have htf : ((df.filter (fun r => decide (r.game_date ∈ dates))).map
      EventRecord.game_date).toFinset = dates.toFinset := by
    ext d
    simp only [List.mem_toFinset]
    exact hmem d
  have h1 := List.card_toFinset
    ((df.filter (fun r => decide (r.game_date ∈ dates))).map EventRecord.game_date)
  rw [htf, List.toFinset_card_of_nodup hnd] at h1
  exact h1.symm

lemma early_dates_nodup (df : List EventRecord) : (early_dates df).Nodup :=
  List.Nodup.sublist (List.take_sublist _ _) (gameDates_nodup df)

lemma mid_dates_nodup (df : List EventRecord) : (mid_dates df).Nodup :=
  List.Nodup.sublist ((List.take_sublist _ _).trans (List.drop_sublist _ _))
    (gameDates_nodup df)

lemma late_dates_nodup (df : List EventRecord) : (late_dates df).Nodup :=
  List.Nodup.sublist (List.drop_sublist _ _) (gameDates_nodup df)

lemma early_dates_sub (df : List EventRecord) :
    ∀ d ∈ early_dates df, d ∈ df.map EventRecord.game_date :=
  fun _ hd => mem_gameDates.mp ((List.take_sublist _ _).subset hd)

lemma mid_dates_sub (df : List EventRecord) :
    ∀ d ∈ mid_dates df, d ∈ df.map EventRecord.game_date :=
  fun _ hd => mem_gameDates.mp
    (((List.take_sublist _ _).trans (List.drop_sublist _ _)).subset hd)

lemma late_dates_sub (df : List EventRecord) :
    ∀ d ∈ late_dates df, d ∈ df.map EventRecord.game_date :=
  fun _ hd => mem_gameDates.mp ((List.drop_sublist _ _).subset hd)

lemma early_dates_len (df : List EventRecord)
    (h : 30 ≤ (gameDates df).length) : (early_dates df).length = 10 := by
  simp only [early_dates, List.length_take]
  exact min_eq_left (by omega)

lemma mid_dates_len (df : List EventRecord)
    (h : 30 ≤ (gameDates df).length) : (mid_dates df).length = 10 := by
  simp only [mid_dates, List.length_take, List.length_drop]
  have h1 : (gameDates df).length / 2 + 5 - ((gameDates df).length / 2 - 5) = 10 := by
    omega
  rw [h1]
  exact min_eq_left (by omega)

lemma late_dates_len (df : List EventRecord)
    (h : 30 ≤ (gameDates df).length) : (late_dates df).length = 10 := by
  simp only [late_dates, List.length_drop]
  omega

/-! ### Claim theorems -/

/-- C1: for a stream with `n` distinct game dates, `slice_by_game_index`
raises the insufficient-sample error carrying the observed count `n` and the
required minimum 30 exactly when `n < 30`, and raises nothing when
`n >= 30`. -/
theorem slice_insufficient_sample_guard (df : List EventRecord) (n : Nat)
    (hn : (df.map EventRecord.game_date).dedup.length = n) :
    (n < 30 → slice_by_game_index df =
      Except.error { observed := n, required := 30 }) ∧
    (30 ≤ n → slice_by_game_index df =
      Except.ok (early_window df, mid_window df, late_window df)) := by
  have hlen : (gameDates df).length = n := (gameDates_length df).trans hn
  constructor
  · intro h
    simp only [slice_by_game_index, hlen]
    rw [if_pos h]
  · intro h
    simp only [slice_by_game_index, hlen]
    rw [if_neg (by omega)]

/-- Witness for C1: a one-record stream has 1 distinct date, and slicing it
reports observed count 1 against required minimum 30. -/
theorem slice_insufficient_sample_guard_witness :
    slice_by_game_index [mkRec 0] =
      Except.error { observed := 1, required := 30 } :=
  (slice_insufficient_sample_guard [mkRec 0] 1 rfl).1 (by decide)

/-- C2: for a stream with at least 30 distinct dates, slicing succeeds, the
Early window holds exactly the records whose date sits at a sorted-date
index below 10, the Late window exactly those at the last 10 sorted-date
indices, and the Early and Late date sets are disjoint already for 20 or
more distinct dates. -/
theorem early_late_windows_exact (df : List EventRecord) :
    (30 ≤ (gameDates df).length →
      slice_by_game_index df =
        Except.ok (early_window df, mid_window df, late_window df) ∧
      (∀ r, r ∈ early_window df ↔
        r ∈ df ∧ ∃ i, i < 10 ∧ (gameDates df)[i]? = some r.game_date) ∧
      (∀ r, r ∈ late_window df ↔
        r ∈ df ∧ ∃ i, (gameDates df).length - 10 ≤ i ∧
          i < (gameDates df).length ∧
          (gameDates df)[i]? = some r.game_date)) ∧
    (20 ≤ (gameDates df).length →
      ∀ d, d ∈ early_dates df → d ∉ late_dates df) := by
  constructor
  · intro h
    refine ⟨?_, ?_, ?_⟩
    · simp only [slice_by_game_index]
      rw [if_neg (by omega)]
    · intro r
      simp only [mem_early_window, mem_early_dates_iff]
    · intro r
      simp only [mem_late_window, mem_late_dates_iff]
  · intro h d hde hdl
    simp only [early_dates] at hde
    simp only [late_dates] at hdl
    exact List.disjoint_take_drop (gameDates_nodup df) (by omega) hde hdl

/-- Witness for C2 at a 30-date stream: slicing succeeds and the earliest
date is not among the Late dates. -/
theorem early_late_windows_exact_witness :
    slice_by_game_index df30 =
      Except.ok (early_window df30, mid_window df30, late_window df30) ∧
    (0 : Nat) ∉ late_dates df30 :=
  ⟨((early_late_windows_exact df30).1 (by decide)).1,
   (early_late_windows_exact df30).2 (by decide) 0 (by decide)⟩

/-- C3: for a stream with at least 30 distinct dates, the Mid window holds
exactly the records whose date sits at a sorted-date index in
`[n / 2 - 5, n / 2 + 5)`; for the 30-date stream `df30` the Mid dates are
the dates at indices 10 through 19, and the boundary arithmetic at
`n = 30`, `31` and `45` is `[10, 20)`, `[10, 20)` and `[17, 27)`. -/
theorem mid_window_exact (df : List EventRecord) :
    (30 ≤ (gameDates df).length →
      ∀ r, r ∈ mid_window df ↔
        r ∈ df ∧ ∃ i, (gameDates df).length / 2 - 5 ≤ i ∧
          i < (gameDates df).length / 2 + 5 ∧
          (gameDates df)[i]? = some r.game_date) ∧
    mid_dates df30 = [10, 11, 12, 13, 14, 15, 16, 17, 18, 19] ∧
    (30 / 2 - 5 = 10 ∧ 30 / 2 + 5 = 20 ∧ 31 / 2 - 5 = 10 ∧ 31 / 2 + 5 = 20 ∧
      45 / 2 - 5 = 17 ∧ 45 / 2 + 5 = 27) := by
  refine ⟨fun _ r => ?_, by decide, by decide⟩
  simp only [mem_mid_window, mem_mid_dates_iff]

/-- Witness for C3 at the 30-date stream and the record dated 12. -/
theorem mid_window_exact_witness :
    mkRec 12 ∈ mid_window df30 ↔
      mkRec 12 ∈ df30 ∧ ∃ i, (gameDates df30).length / 2 - 5 ≤ i ∧
        i < (gameDates df30).length / 2 + 5 ∧
        (gameDates df30)[i]? = some (mkRec 12).game_date :=
  (mid_window_exact df30).1 (by decide) (mkRec 12)

/-- C4 counterexample: the window holding exactly one single (and no other
event) has BABIP denominator 1 — a single is itself an at-bat — so
`aggregate_metrics` yields `babip = 1.0`, not `null` as the claim states. -/
theorem babip_single_window_not_null :
    (aggregate_metrics single_only_window "test").babip = some 1 := by
  have hev : single_only_window.filterMap EventRecord.events = ["single"] := by
    decide
  have hden : babipDenominator ["single"] = 1 := by decide
  have hhits : countIn ["single"] hitEvents = 1 := by decide
  have hhr : countEq ["single"] "home_run" = 0 := by decide
  simp only [aggregate_metrics, hev, hden, hhits, hhr]
  norm_num [pyRound, roundHalfEven]

/-- C4 amended: `babip` is `null` exactly when the denominator
`at_bats - strikeouts - home_runs + sac_flies` is `<= 0`, and otherwise
equals `(hits - home_runs) / denominator` rounded to 3 decimals; the
one-single window has denominator 1 (a single is an at-bat), so its
`babip` is `1.0`, not `null`. -/
theorem babip_null_iff_denominator (df : List EventRecord) (s : String) :
    (babipDenominator (df.filterMap EventRecord.events) ≤ 0 →
      (aggregate_metrics df s).babip = none) ∧
    (0 < babipDenominator (df.filterMap EventRecord.events) →
      (aggregate_metrics df s).babip = some (pyRound
        ((((countIn (df.filterMap EventRecord.events) hitEvents : ℤ) -
          (countEq (df.filterMap EventRecord.events) "home_run" : ℤ)) : ℚ) /
          (babipDenominator (df.filterMap EventRecord.events) : ℚ)) 3)) := by
  constructor
  · intro h
    simp only [aggregate_metrics]
    rw [if_neg (by omega)]
  · intro h
    simp only [aggregate_metrics]
    rw [if_pos h]
    norm_cast

/-- Witness for C4 (amended) at the one-single window: its denominator is
positive, so the rounded quotient is returned. -/
theorem babip_null_iff_denominator_witness :
    (aggregate_metrics single_only_window "w").babip = some (pyRound
      ((((countIn (single_only_window.filterMap EventRecord.events)
          hitEvents : ℤ) -
        (countEq (single_only_window.filterMap EventRecord.events)
          "home_run" : ℤ)) : ℚ) /
        (babipDenominator (single_only_window.filterMap
          EventRecord.events) : ℚ)) 3) :=
  (babip_null_iff_denominator single_only_window "w").2 (by decide)

/-- C5: the trend classifier returns `insufficient_data` when either input
is missing, `stable` when `|late - early| < 1`, `increasing` when
`late - early >= 1` and `decreasing` when `late - early <= -1`; in
particular 88.0 to 89.5 is `increasing`, 90.0 to 90.3 is `stable` and 95.0
to 92.0 is `decreasing`. -/
theorem trend_classification_cases (e m l : Option ℚ) :
    ((e = none ∨ l = none) → _calculate_trend e m l = "insufficient_data") ∧
    (∀ ev lv, e = some ev → l = some lv →
      ((|lv - ev| < 1 → _calculate_trend e m l = "stable") ∧
       (1 ≤ lv - ev → _calculate_trend e m l = "increasing") ∧
       (lv - ev ≤ -1 → _calculate_trend e m l = "decreasing"))) ∧
    _calculate_trend (some 88) m (some 89.5) = "increasing" ∧
    _calculate_trend (some 90) m (some 90.3) = "stable" ∧
    _calculate_trend (some 95) m (some 92) = "decreasing" := by
  have key : ∀ (ev lv : ℚ) (mv : Option ℚ),
      (|lv - ev| < 1 →
        _calculate_trend (some ev) mv (some lv) = "stable") ∧
      (1 ≤ lv - ev →
        _calculate_trend (some ev) mv (some lv) = "increasing") ∧
      (lv - ev ≤ -1 →
        _calculate_trend (some ev) mv (some lv) = "decreasing") := by
    intro ev lv mv
    refine ⟨fun h => ?_, fun h => ?_, fun h => ?_⟩
    · simp only [_calculate_trend]
      rw [if_pos h]
    · have habs : ¬ |lv - ev| < 1 := not_lt.mpr (le_trans h (le_abs_self _))
      have hpos : 0 < lv - ev := lt_of_lt_of_le one_pos h
      simp only [_calculate_trend]
      rw [if_neg habs, if_pos hpos]
    · have habs : ¬ |lv - ev| < 1 := by
        rw [not_lt]
        calc (1 : ℚ) ≤ -(lv - ev) := by linarith
          _ ≤ |lv - ev| := neg_le_abs _
      have hpos : ¬ 0 < lv - ev := by linarith
      simp only [_calculate_trend]
      rw [if_neg habs, if_neg hpos]
  refine ⟨?_, ?_, ?_, ?_, ?_⟩
  · rintro (rfl | rfl)
    · rfl
    · cases e <;> rfl
  · intro ev lv he hl
    subst he
    subst hl
    exact key ev lv m
  · exact (key 88 89.5 m).2.1 (by norm_num)
  · exact (key 90 90.3 m).1 (by rw [abs_lt]; norm_num)
  · exact (key 95 92 m).2.2 (by norm_num)

/-- Witness for C5: Early 88.0 to Late 89.5 classifies as `increasing`. -/
theorem trend_classification_cases_witness :
    _calculate_trend (some 88) none (some 89.5) = "increasing" :=
  ((trend_classification_cases (some 88) none (some 89.5)).2.1
    88 89.5 rfl rfl).2.1 (by norm_num)

/-- C6: `aggregate_metrics` is total — a field that is null on every record
yields a `null` metric (for instance `hard_hit_rate` with no non-null
`launch_speed` values), and every ratio metric yields `null` instead of
dividing when its denominator is zero. -/
theorem aggregate_metrics_null_safety (df : List EventRecord) (s : String) :
    (df.filterMap EventRecord.launch_speed = [] →
      (aggregate_metrics df s).avg_launch_speed = none ∧
      (aggregate_metrics df s).hard_hit_rate = none) ∧
    (df.filterMap EventRecord.launch_angle = [] →
      (aggregate_metrics df s).avg_launch_angle = none) ∧
    (df.filterMap EventRecord.hit_distance_sc = [] →
      (aggregate_metrics df s).max_hit_distance = none) ∧
    (df.filterMap EventRecord.release_spin_rate = [] →
      (aggregate_metrics df s).avg_pitcher_spin = none) ∧
    ((df.filter (fun r => optMem r.description swingDescriptions)).length = 0 →
      (aggregate_metrics df s).whiff_rate = none) ∧
    ((df.filterMap EventRecord.events).length = 0 →
      (aggregate_metrics df s).bb_rate = none ∧
      (aggregate_metrics df s).k_rate = none) ∧
    (babipDenominator (df.filterMap EventRecord.events) = 0 →
      (aggregate_metrics df s).babip = none) ∧
    (wobaDenominator (df.filterMap EventRecord.events) = 0 →
      (aggregate_metrics df s).woba = none) := by
  refine ⟨fun h => ⟨?_, ?_⟩, fun h => ?_, fun h => ?_, fun h => ?_,
    fun h => ?_, fun h => ⟨?_, ?_⟩, fun h => ?_, fun h => ?_⟩
  all_goals simp [aggregate_metrics, h]

/-- Witness for C6: on the event-free 30-date stream `hard_hit_rate` and
`whiff_rate` are `null`; on the one-walk window the BABIP denominator is
zero with a non-empty events column, so `babip` is `null`; on the one
sacrifice-bunt window the wOBA denominator is zero with a non-empty events
column, so `woba` is `null`. -/
theorem aggregate_metrics_null_safety_witness :
    (aggregate_metrics df30 "Early").hard_hit_rate = none ∧
    (aggregate_metrics df30 "Early").whiff_rate = none ∧
    (aggregate_metrics df30 "Early").bb_rate = none ∧
    (aggregate_metrics walk_only_window "Early").babip = none ∧
    (aggregate_metrics sac_bunt_only_window "Early").woba = none :=
  ⟨((aggregate_metrics_null_safety df30 "Early").1 (by decide)).2,
   (aggregate_metrics_null_safety df30 "Early").2.2.2.2.1 (by decide),
   ((aggregate_metrics_null_safety df30 "Early").2.2.2.2.2.1 (by decide)).1,
   (aggregate_metrics_null_safety walk_only_window
     "Early").2.2.2.2.2.2.1 (by decide),
   (aggregate_metrics_null_safety sac_bunt_only_window
     "Early").2.2.2.2.2.2.2 (by decide)⟩

/-- C7 counterexample: on the 30-date stream the Mid window stops at sorted
index 19, so the date at index 20 (date 20 of `df30`) lies in the Late
window but in no Mid record — Mid and Late do not share the date at index
20, contrary to the claim. -/
theorem mid_late_share_counterexample :
    (mid_window df30).all (fun r => r.game_date != 20) = true ∧
    (late_window df30).any (fun r => r.game_date == 20) = true := by
  decide

/-- C7 amended: for a stream with exactly 30 distinct dates, Early covers
sorted-date indices 0 to 9, Mid covers indices 10 to 19 (not 10 to 20),
Late covers indices 20 to 29, and the Mid and Late date sets are
disjoint. -/
theorem windows_at_thirty_games (df : List EventRecord)
    (h : (gameDates df).length = 30) :
    (∀ r, r ∈ early_window df ↔
      r ∈ df ∧ ∃ i, i < 10 ∧ (gameDates df)[i]? = some r.game_date) ∧
    (∀ r, r ∈ mid_window df ↔
      r ∈ df ∧ ∃ i, 10 ≤ i ∧ i < 20 ∧
        (gameDates df)[i]? = some r.game_date) ∧
    (∀ r, r ∈ late_window df ↔
      r ∈ df ∧ ∃ i, 20 ≤ i ∧ i < 30 ∧
        (gameDates df)[i]? = some r.game_date) ∧
    (∀ d, d ∈ mid_dates df → d ∉ late_dates df) := by
  refine ⟨?_, ?_, ?_, ?_⟩
  · intro r
    simp only [mem_early_window, mem_early_dates_iff]
  · intro r
    simp only [mem_mid_window, mem_mid_dates_iff, h]
  · intro r
    simp only [mem_late_window, mem_late_dates_iff, h]
  · intro d hdm hdl
    have hdm20 : d ∈ (gameDates df).take 20 := by
      rcases mem_mid_dates_iff.mp hdm with ⟨i, _, h2, h3⟩
      rw [h] at h2
      exact mem_take_iff_index.mpr ⟨i, by omega, h3⟩
    have hdl20 : d ∈ (gameDates df).drop 20 := by
      have h20 : (gameDates df).length - 10 = 20 := by omega
      simpa only [late_dates, h20] using hdl
    exact List.disjoint_take_drop (gameDates_nodup df) le_rfl hdm20 hdl20

/-- Witness for C7 (amended) at the 30-date stream and the record dated
20: it belongs to the Late window via index 20. -/
theorem windows_at_thirty_games_witness :
    mkRec 20 ∈ late_window df30 ↔
      mkRec 20 ∈ df30 ∧ ∃ i, 20 ≤ i ∧ i < 30 ∧
        (gameDates df30)[i]? = some (mkRec 20).game_date :=
  (windows_at_thirty_games df30 (by decide)).2.2.1 (mkRec 20)

/-- C8: the assembler sums the three `games` values into
`total_games_analyzed` and stores the labels of the Trend Classifier for exactly
`avg_launch_speed`, `hard_hit_rate` and `k_rate` in the summary. -/
theorem diagnosis_assembler_fields (p : String) (e m l : SegmentMetrics) :
    (build_diagnosis_json p e m l).summary.total_games_analyzed =
      e.games + m.games + l.games ∧
    (build_diagnosis_json p e m l).summary.launch_speed_trend =
      _calculate_trend e.avg_launch_speed m.avg_launch_speed
        l.avg_launch_speed ∧
    (build_diagnosis_json p e m l).summary.hard_hit_trend =
      _calculate_trend e.hard_hit_rate m.hard_hit_rate l.hard_hit_rate ∧
    (build_diagnosis_json p e m l).summary.k_rate_trend =
      _calculate_trend e.k_rate m.k_rate l.k_rate :=
  ⟨rfl, rfl, rfl, rfl⟩

/-- C9: re-applying the Trend Classifier to the early and late segment
values stored in a `DiagnosisResult` reproduces the labels stored in its
summary, for each of the three tracked metrics. -/
theorem diagnosis_trend_roundtrip (p : String) (e m l : SegmentMetrics) :
    _calculate_trend
        (build_diagnosis_json p e m l).analysis_segments.early.avg_launch_speed
        (build_diagnosis_json p e m l).analysis_segments.mid.avg_launch_speed
        (build_diagnosis_json p e m l).analysis_segments.late.avg_launch_speed =
      (build_diagnosis_json p e m l).summary.launch_speed_trend ∧
    _calculate_trend
        (build_diagnosis_json p e m l).analysis_segments.early.hard_hit_rate
        (build_diagnosis_json p e m l).analysis_segments.mid.hard_hit_rate
        (build_diagnosis_json p e m l).analysis_segments.late.hard_hit_rate =
      (build_diagnosis_json p e m l).summary.hard_hit_trend ∧
    _calculate_trend
        (build_diagnosis_json p e m l).analysis_segments.early.k_rate
        (build_diagnosis_json p e m l).analysis_segments.mid.k_rate
        (build_diagnosis_json p e m l).analysis_segments.late.k_rate =
      (build_diagnosis_json p e m l).summary.k_rate_trend :=
  ⟨rfl, rfl, rfl⟩

/-- C10: for a stream with at least 30 distinct dates every window holds
records for exactly 10 distinct dates, so the `games` metric of each window is
10 and the assembled `total_games_analyzed` is 30. -/
theorem windows_game_counts (df : List EventRecord)
    (h : 30 ≤ (gameDates df).length) :
    (∀ s, (aggregate_metrics (early_window df) s).games = 10) ∧
    (∀ s, (aggregate_metrics (mid_window df) s).games = 10) ∧
    (∀ s, (aggregate_metrics (late_window df) s).games = 10) ∧
    (∀ p se sm sl, (build_diagnosis_json p
        (aggregate_metrics (early_window df) se)
        (aggregate_metrics (mid_window df) sm)
        (aggregate_metrics (late_window df) sl)).summary.total_games_analyzed
      = 30) := by
  have he : ∀ s, (aggregate_metrics (early_window df) s).games = 10 := by
    intro s
    rw [aggregate_games]
    simp only [early_window]
    rw [window_games_eq df (early_dates df) (early_dates_nodup df)
      (early_dates_sub df)]
    exact early_dates_len df h
  have hm : ∀ s, (aggregate_metrics (mid_window df) s).games = 10 := by
    intro s
    rw [aggregate_games]
    simp only [mid_window]
    rw [window_games_eq df (mid_dates df) (mid_dates_nodup df)
      (mid_dates_sub df)]
    exact mid_dates_len df h
  have hl : ∀ s, (aggregate_metrics (late_window df) s).games = 10 := by
    intro s
    rw [aggregate_games]
    simp only [late_window]
    rw [window_games_eq df (late_dates df) (late_dates_nodup df)
      (late_dates_sub df)]
    exact late_dates_len df h
  refine ⟨he, hm, hl, fun p se sm sl => ?_⟩
  rw [total_games_eq, he se, hm sm, hl sl]

/-- Witness for C10 at the 30-date stream: the Early window aggregates 10
games and the assembled total is 30. -/
theorem windows_game_counts_witness :
    (aggregate_metrics (early_window df30) "Early").games = 10 ∧
    (build_diagnosis_json "p" (aggregate_metrics (early_window df30) "Early")
      (aggregate_metrics (mid_window df30) "Mid")
      (aggregate_metrics (late_window df30) "Late")).summary.total_games_analyzed
      = 30 :=
  ⟨(windows_game_counts df30 (by decide)).1 "Early",
   (windows_game_counts df30 (by decide)).2.2.2 "p" "Early" "Mid" "Late"⟩
